import Mathlib

/-!
Verification of the ESA (Alibaba Cloud ESA) DNS provider adapter of ddns-go,
`src/dns/esa.go`, as a shallow embedding.  The network transport is modelled
as an oracle (`Env`) mapping an outgoing query-parameter set to either a
decoded JSON response or a transport error; everything else follows the Go
source line by line.  Parts of the repository that live outside `src/`
(the `config` and `util` packages) are modelled from the specification; each
such definition carries a doc comment starting `Modelled from the spec:`.
-/

namespace DdnsGo

/-- Query parameters, modelling Go's `url.Values` as an association list of
key-value pairs.  `url.Values.Set` replaces every existing value of the key
with the single new value; `Get` returns the first value of a key. -/
def Params : Type := List (String × String)

instance : DecidableEq Params :=
  inferInstanceAs (DecidableEq (List (String × String)))

instance : Append Params := ⟨fun a b => List.append a b⟩

/-- The empty parameter set (`url.Values{}`). -/
def Params.empty : Params := []

/-- `url.Values.Set`: drop every pair with the given key, record the new
single value for it. -/
def Params.set (p : Params) (k v : String) : Params :=
  (List.filter (fun kv => kv.1 ≠ k) p) ++ [(k, v)]

/-- `url.Values.Get`: first value recorded for the key, if any. -/
def Params.get (p : Params) (k : String) : Option String :=
  (List.find? (fun kv => kv.1 = k) p).map (fun kv => kv.2)

/-- Record data (`ESARecord.Data`, the anonymous struct holding `Value`). -/
structure ESAData where
  value : String
  deriving DecidableEq, Repr

/-- `ESARecord`: a DNS record as reported by the provider. -/
structure ESARecord where
  recordId : Int
  recordName : String
  type : String
  data : ESAData
  deriving DecidableEq, Repr

/-- `ESASite`: a provider-side site (zone). -/
structure ESASite where
  siteId : Int
  siteName : String
  deriving DecidableEq, Repr

/-- The decoded JSON response body.  Go decodes the same wire JSON into
`ESAListSitesResp`, `ESAListRecordsResp` or `ESAResp` depending on the call;
this structure carries the union of their fields, and each operation
projects only the fields its Go response struct declares. -/
structure RespData where
  totalCount : Nat
  sites : List ESASite
  records : List ESARecord
  requestId : String
  recordId : Int
  deriving DecidableEq, Repr

/-- Modelled from the spec: per-domain update status
(`config.UpdateStatusType`, not under `src/`).  The spec names the states
`NotExecuted | Success | Failed`; the source refers to them as
`config.UpdatedNothing`, `config.UpdatedSuccess`, `config.UpdatedFailed`. -/
inductive UpdateStatusType where
  | UpdatedNothing
  | UpdatedFailed
  | UpdatedSuccess
  deriving DecidableEq, Repr

/-- Modelled from the spec: one configured hostname (`config.Domain`, not
under `src/`): subdomain label, root domain, custom vendor parameter bag
(opaque to the driver), and the per-family update status that the driver
mutates in place. -/
structure Domain where
  domainName : String
  subDomain : String
  customParams : Params
  updateStatus : UpdateStatusType
  deriving DecidableEq

/-- Modelled from the spec: `Domain.GetFullDomain` (in `config`, not under
`src/`) joins the subdomain label and the root domain into the full
hostname; an empty subdomain means the root domain itself. -/
def Domain.GetFullDomain (d : Domain) : String :=
  if d.subDomain = "" then d.domainName else d.subDomain ++ "." ++ d.domainName

/-- Modelled from the spec: `Domain.GetCustomParams` (in `config`, not under
`src/`) supplies the domain's custom parameter bag as `url.Values`, an
opaque mapping the driver passes through untouched. -/
def Domain.GetCustomParams (d : Domain) : Params := d.customParams

/-- Modelled from the spec: `util.IpCache` (not under `src/`): the
last-applied address per family with the timestamp of the last apply. -/
structure IpCache where
  addr : String
  times : Int
  deriving DecidableEq

/-- Modelled from the spec: `config.Domains` (not under `src/`): the current
address, the candidate domain list for each address family, and the two
shared IP caches. -/
structure Domains where
  ipv4Addr : String
  ipv6Addr : String
  ipv4Domains : List Domain
  ipv6Domains : List Domain
  ipv4Cache : IpCache
  ipv6Cache : IpCache
  deriving DecidableEq

/-- Modelled from the spec: `config.Domains.GetNewIpResult` (not under
`src/`) supplies the current address for the address family (empty string
when discovery failed this cycle) and the subset of domains tracking that
family; `"AAAA"` selects the IPv6 side, anything else the IPv4 side. -/
def Domains.GetNewIpResult (ds : Domains) (recordType : String) :
    String × List Domain :=
  if recordType = "AAAA" then (ds.ipv6Addr, ds.ipv6Domains)
  else (ds.ipv4Addr, ds.ipv4Domains)

/-- Modelled from the spec: writing the processed per-family domain list
back into the domain set (in Go the loop mutates `*config.Domain` through
pointers, so the containing `Domains` sees the new statuses). -/
def Domains.setDomains (ds : Domains) (recordType : String)
    (newDoms : List Domain) : Domains :=
  if recordType = "AAAA" then { ds with ipv6Domains := newDoms }
  else { ds with ipv4Domains := newDoms }

/-- Account credentials (`config.DNS`: ID and Secret). -/
structure DNSCred where
  id : String
  secret : String
  deriving DecidableEq

/-- The slice of `config.DnsConfig` that `ESA.Init` reads: the credentials
and the configured TTL string. -/
structure DnsConfig where
  dns : DNSCred
  ttl : String
  deriving DecidableEq

/-- The `ESA` driver state after `Init`: credentials and effective TTL. -/
structure ESAConf where
  dns : DNSCred
  ttl : String
  deriving DecidableEq

/-- `ESA.Init`: adopts the configured credentials and sets the TTL to the
configured value, defaulting to `"30"` when the configuration leaves the
TTL empty.  (The cache and IP-discovery wiring of `Init` lives in the
`config` package outside `src/` and is carried by `Domains` here.) -/
def ESA.Init (dnsConf : DnsConfig) : ESAConf :=
  { dns := dnsConf.dns
    ttl := if dnsConf.ttl = "" then "30" else dnsConf.ttl }

/-- A request that went out on the wire.  Modelled from the spec:
`util.AliyunSigner(esa.DNS.ID, esa.DNS.Secret, &params)` (in `util`, not
under `src/`) signs every request from the account identifier, the secret
and the exact query parameter set before it is sent; the signature inputs
are recorded here. -/
structure SentReq where
  signedId : String
  signedSecret : String
  params : Params
  deriving DecidableEq

/-- The transport oracle: what the provider answers to a given query
parameter set — either a decoded response body or a transport error. -/
def Env : Type := Params → Except String RespData

/-- `ESA.request`: signs the parameters with the account ID and secret,
sends them to the endpoint, and decodes the response.  Returns the sent
(signed) request together with the decoded outcome. -/
def ESAConf.request (esa : ESAConf) (env : Env) (params : Params) :
    SentReq × Except String RespData :=
  ({ signedId := esa.dns.id, signedSecret := esa.dns.secret, params := params },
   env params)

/-- The parameters `getSiteId` builds: a `ListSites` query on the exact
site name. -/
def ESAConf.sitesParams (_esa : ESAConf) (domainName : String) : Params :=
  ((((Params.empty.set "Action" "ListSites").set
      "Version" "2024-09-10").set
      "SiteName" domainName).set
      "ExactMatch" "true")

/-- `ESA.getSiteId`: looks up the site by exact name and returns the first
site's id; errors when the transport fails, when the reported total count
is zero, or when the site list is empty. -/
def ESAConf.getSiteId (esa : ESAConf) (env : Env) (domainName : String) :
    SentReq × Except String Int :=
  match esa.request env (esa.sitesParams domainName) with
  | (sent, .error e) => (sent, .error e)
  | (sent, .ok result) =>
    match result.sites with
    | [] => (sent, .error ("site not found for domain: " ++ domainName))
    | s :: _ =>
      if result.totalCount = 0 then
        (sent, .error ("site not found for domain: " ++ domainName))
      else
        (sent, .ok s.siteId)

/-- The parameters `listRecords` builds: a `ListRecords` query filtered by
site, exact record name and record type. -/
def ESAConf.recordsParams (_esa : ESAConf) (siteId : Int) (d : Domain)
    (recordType : String) : Params :=
  (((((Params.empty.set "Action" "ListRecords").set
      "Version" "2024-09-10").set
      "SiteId" (toString siteId)).set
      "RecordName" d.GetFullDomain).set
      "RecordNameMode" "exact").set
      "Type" recordType

/-- `ESA.listRecords`: lists the records matching the domain's full name
and record type in the site; returns the (possibly empty) record list. -/
def ESAConf.listRecords (esa : ESAConf) (env : Env) (siteId : Int)
    (d : Domain) (recordType : String) :
    SentReq × Except String (List ESARecord) :=
  match esa.request env (esa.recordsParams siteId d recordType) with
  | (sent, .error e) => (sent, .error e)
  | (sent, .ok result) => (sent, .ok result.records)

/-- Modelled from the spec/Go standard library: `json.Marshal` of a string
(`encoding/json` is outside `src/`): quote the string, escaping the quote
and backslash characters. -/
def jsonEscapeChar (c : Char) : String :=
  if c = '"' then "\\\"" else if c = '\\' then "\\\\" else String.singleton c

/-- Modelled from the spec/Go standard library: JSON string literal. -/
def jsonString (s : String) : String :=
  "\"" ++ String.join (s.toList.map jsonEscapeChar) ++ "\""

/-- The `Data` JSON payload built by `create` and `modify`:
`json.Marshal(map[string]string{"Value": ipAddr})`. -/
def dataJson (ipAddr : String) : String :=
  "\x7b\"Value\":" ++ jsonString ipAddr ++ "\x7d"

/-- The parameters `create` builds: the domain's custom parameter bag with
the `CreateRecord` call fields set over it. -/
def ESAConf.createParams (esa : ESAConf) (siteId : Int) (d : Domain)
    (recordType ipAddr : String) : Params :=
  ((((((d.GetCustomParams.set "Action" "CreateRecord").set
      "Version" "2024-09-10").set
      "SiteId" (toString siteId)).set
      "RecordName" d.GetFullDomain).set
      "Type" recordType).set
      "Data" (dataJson ipAddr)).set
      "TTL" esa.ttl

/-- `ESA.create`: issues one `CreateRecord` request carrying the current
address; on success marks the domain `UpdatedSuccess`, on error
`UpdatedFailed`. -/
def ESAConf.create (esa : ESAConf) (env : Env) (siteId : Int) (d : Domain)
    (recordType ipAddr : String) : Domain × SentReq :=
  match esa.request env (esa.createParams siteId d recordType ipAddr) with
  | (sent, .error _) => ({ d with updateStatus := .UpdatedFailed }, sent)
  | (sent, .ok _) => ({ d with updateStatus := .UpdatedSuccess }, sent)

/-- The parameters `modify` builds: the domain's custom parameter bag with
the `UpdateRecord` call fields, including the record id, set over it. -/
def ESAConf.modifyParams (esa : ESAConf) (siteId : Int) (record : ESARecord)
    (d : Domain) (recordType ipAddr : String) : Params :=
  (((((((d.GetCustomParams.set "Action" "UpdateRecord").set
      "Version" "2024-09-10").set
      "SiteId" (toString siteId)).set
      "RecordId" (toString record.recordId)).set
      "RecordName" d.GetFullDomain).set
      "Type" recordType).set
      "Data" (dataJson ipAddr)).set
      "TTL" esa.ttl

/-- `ESA.modify`: when the existing record's value already equals the
current address, logs "no change" and returns without any request and
without touching the domain; otherwise issues one `UpdateRecord` request
and marks the domain `UpdatedSuccess` or `UpdatedFailed`. -/
def ESAConf.modify (esa : ESAConf) (env : Env) (siteId : Int)
    (record : ESARecord) (d : Domain) (recordType ipAddr : String) :
    Domain × List SentReq :=
  if record.data.value = ipAddr then
    (d, [])
  else
    match esa.request env (esa.modifyParams siteId record d recordType ipAddr) with
    | (sent, .error _) => ({ d with updateStatus := .UpdatedFailed }, [sent])
    | (sent, .ok _) => ({ d with updateStatus := .UpdatedSuccess }, [sent])

/-- The body of the per-domain loop in `addUpdateDomainRecords`: resolve
the site, list the records, then update the first record or create a new
one; a site-resolution or listing error marks the domain `UpdatedFailed`
and moves on.  Returns the domain's new state and the requests sent for
it, in order. -/
def ESAConf.processDomain (esa : ESAConf) (env : Env)
    (recordType ipAddr : String) (d : Domain) : Domain × List SentReq :=
  match esa.getSiteId env d.domainName with
  | (sent1, .error _) => ({ d with updateStatus := .UpdatedFailed }, [sent1])
  | (sent1, .ok siteId) =>
    match esa.listRecords env siteId d recordType with
    | (sent2, .error _) => ({ d with updateStatus := .UpdatedFailed }, [sent1, sent2])
    | (sent2, .ok records) =>
      match records with
      | r :: _ =>
        match esa.modify env siteId r d recordType ipAddr with
        | (d2, calls) => (d2, sent1 :: sent2 :: calls)
      | [] =>
        match esa.create env siteId d recordType ipAddr with
        | (d2, call) => (d2, [sent1, sent2, call])

/-- The `for _, domain := range domains` loop: each domain is processed in
turn, independently of the others. -/
def ESAConf.processDomains (esa : ESAConf) (env : Env)
    (recordType ipAddr : String) : List Domain → List Domain × List SentReq
  | [] => ([], [])
  | d :: rest =>
    match esa.processDomain env recordType ipAddr d with
    | (d2, calls) =>
      match esa.processDomains env recordType ipAddr rest with
      | (rest2, calls2) => (d2 :: rest2, calls ++ calls2)

/-- `ESA.addUpdateDomainRecords` (lower case): one reconciliation pass for
one record type: obtain the current address and candidate domains; when
the address is empty return at once, otherwise process every domain. -/
def ESAConf.addUpdateDomainRecords (esa : ESAConf) (env : Env)
    (recordType : String) (ds : Domains) : Domains × List SentReq :=
  let ipAddr := (ds.GetNewIpResult recordType).1
  let domains := (ds.GetNewIpResult recordType).2
  if ipAddr = "" then
    (ds, [])
  else
    (ds.setDomains recordType (esa.processDomains env recordType ipAddr domains).1,
     (esa.processDomains env recordType ipAddr domains).2)

/-- `ESA.AddUpdateDomainRecords`: runs the `"A"` pass then the `"AAAA"`
pass and returns the updated domain set with the full call trace. -/
def ESAConf.AddUpdateDomainRecords (esa : ESAConf) (env : Env)
    (ds : Domains) : Domains × List SentReq :=
  match esa.addUpdateDomainRecords env "A" ds with
  | (ds1, t1) =>
    match esa.addUpdateDomainRecords env "AAAA" ds1 with
    | (ds2, t2) => (ds2, t1 ++ t2)

/-! ### Helper lemmas about the embedding -/

/-- `url.Values.Get` after `url.Values.Set`: the set key now reads the new
value, every other key is untouched. -/
theorem Params.get_set (p : Params) (k k' v : String) :
    Params.get (Params.set p k' v) k
      = if k = k' then some v else Params.get p k := by
  unfold Params.get Params.set
  induction p with
  | nil =>
    by_cases h : k = k'
    · subst h; simp [List.find?_cons]
    · have h2 : ¬ (k' = k) := fun hk => h hk.symm
      simp [List.find?_cons, h, h2]
  | cons kv rest ih =>
    by_cases h1 : kv.1 = k'
    · by_cases h : k = k'
      · subst h
        simp only [List.filter_cons, h1, decide_not, decide_True, Bool.not_true,
          if_false, Bool.false_eq_true]
        simpa using ih
      · have h2 : ¬ (kv.1 = k) := by rw [h1]; exact fun hk => h hk.symm
        have h3 : ¬ (k' = k) := fun hk => h hk.symm
        simp only [List.filter_cons, h1, decide_not, decide_True, Bool.not_true,
          if_false, Bool.false_eq_true, List.find?_cons, h2, decide_False]
        simpa [h, h3] using ih
    · by_cases h2 : kv.1 = k
      · have h : ¬ (k = k') := fun hk => h1 (h2.trans hk)
        simp [List.filter_cons, List.find?_cons, h1, h2, h]
      · simp only [List.filter_cons, List.find?_cons, h1, h2, decide_not,
          decide_False, Bool.not_false, if_true, List.cons_append, Bool.false_eq_true]
        simpa using ih

/-- `getSiteId` unfolded: the sent request is the signed `ListSites` query,
and the outcome branches on the decoded response. -/
theorem getSiteId_eq (esa : ESAConf) (env : Env) (n : String) :
    esa.getSiteId env n
      = (⟨esa.dns.id, esa.dns.secret, esa.sitesParams n⟩,
         match env (esa.sitesParams n) with
         | .error e => .error e
         | .ok result =>
           match result.sites with
           | [] => .error ("site not found for domain: " ++ n)
           | s :: _ =>
             if result.totalCount = 0 then
               .error ("site not found for domain: " ++ n)
             else
               .ok s.siteId) := by
  unfold ESAConf.getSiteId ESAConf.request
  cases env (esa.sitesParams n) with
  | error e => rfl
  | ok result =>
    cases hs : result.sites with
    | nil => simp [hs]
    | cons s rest =>
      by_cases h : result.totalCount = 0 <;> simp [hs, h]

/-- `listRecords` unfolded. -/
theorem listRecords_eq (esa : ESAConf) (env : Env) (siteId : Int)
    (d : Domain) (recordType : String) :
    esa.listRecords env siteId d recordType
      = (⟨esa.dns.id, esa.dns.secret, esa.recordsParams siteId d recordType⟩,
         match env (esa.recordsParams siteId d recordType) with
         | .error e => .error e
         | .ok result => .ok result.records) := by
  unfold ESAConf.listRecords ESAConf.request
  cases env (esa.recordsParams siteId d recordType) <;> rfl

/-- `create` unfolded: one signed `CreateRecord` request, status `Success`
on a decoded response and `Failed` on a transport error. -/
theorem create_eq (esa : ESAConf) (env : Env) (siteId : Int) (d : Domain)
    (recordType ipAddr : String) :
    esa.create env siteId d recordType ipAddr
      = ({ d with updateStatus :=
            match env (esa.createParams siteId d recordType ipAddr) with
            | .error _ => .UpdatedFailed
            | .ok _ => .UpdatedSuccess },
         ⟨esa.dns.id, esa.dns.secret,
          esa.createParams siteId d recordType ipAddr⟩) := by
  unfold ESAConf.create ESAConf.request
  cases env (esa.createParams siteId d recordType ipAddr) <;> rfl

/-- `modify` unfolded: no request and no domain change when the record
already holds the current address, otherwise one signed `UpdateRecord`
request with status `Success` or `Failed`. -/
theorem modify_eq (esa : ESAConf) (env : Env) (siteId : Int)
    (record : ESARecord) (d : Domain) (recordType ipAddr : String) :
    esa.modify env siteId record d recordType ipAddr
      = if record.data.value = ipAddr then (d, [])
        else
          ({ d with updateStatus :=
              match env (esa.modifyParams siteId record d recordType ipAddr) with
              | .error _ => .UpdatedFailed
              | .ok _ => .UpdatedSuccess },
           [⟨esa.dns.id, esa.dns.secret,
             esa.modifyParams siteId record d recordType ipAddr⟩]) := by
  unfold ESAConf.modify ESAConf.request
  by_cases h : record.data.value = ipAddr
  · simp [h]
  · simp only [h, if_false]
    cases env (esa.modifyParams siteId record d recordType ipAddr) <;> rfl

/-- The site-lookup request sent by `getSiteId` is always the signed
`ListSites` query, whatever the provider answers. -/
theorem getSiteId_fst (esa : ESAConf) (env : Env) (n : String) :
    (esa.getSiteId env n).1
      = ⟨esa.dns.id, esa.dns.secret, esa.sitesParams n⟩ := by
  rw [getSiteId_eq]

/-- The record-listing request sent by `listRecords` is always the signed
`ListRecords` query. -/
theorem listRecords_fst (esa : ESAConf) (env : Env) (siteId : Int)
    (d : Domain) (recordType : String) :
    (esa.listRecords env siteId d recordType).1
      = ⟨esa.dns.id, esa.dns.secret, esa.recordsParams siteId d recordType⟩ := by
  rw [listRecords_eq]

/-- Site-resolution failure branch of the loop body: the domain is marked
`UpdatedFailed` and only the site-lookup request went out. -/
theorem processDomain_site_err (esa : ESAConf) (env : Env)
    (recordType ipAddr : String) (d : Domain) (c1 : SentReq) (e : String)
    (h : esa.getSiteId env d.domainName = (c1, .error e)) :
    esa.processDomain env recordType ipAddr d
      = ({ d with updateStatus := .UpdatedFailed }, [c1]) := by
  unfold ESAConf.processDomain
  rw [h]

/-- Record-listing failure branch of the loop body. -/
theorem processDomain_list_err (esa : ESAConf) (env : Env)
    (recordType ipAddr : String) (d : Domain) (c1 c2 : SentReq)
    (siteId : Int) (e : String)
    (h1 : esa.getSiteId env d.domainName = (c1, .ok siteId))
    (h2 : esa.listRecords env siteId d recordType = (c2, .error e)) :
    esa.processDomain env recordType ipAddr d
      = ({ d with updateStatus := .UpdatedFailed }, [c1, c2]) := by
  simp only [ESAConf.processDomain, h1, h2]

/-- Existing-record branch of the loop body: the first listed record is
handed to `modify`, the rest of the list is dropped. -/
theorem processDomain_cons (esa : ESAConf) (env : Env)
    (recordType ipAddr : String) (d : Domain) (c1 c2 : SentReq)
    (siteId : Int) (r : ESARecord) (rest : List ESARecord)
    (h1 : esa.getSiteId env d.domainName = (c1, .ok siteId))
    (h2 : esa.listRecords env siteId d recordType = (c2, .ok (r :: rest))) :
    esa.processDomain env recordType ipAddr d
      = ((esa.modify env siteId r d recordType ipAddr).1,
         c1 :: c2 :: (esa.modify env siteId r d recordType ipAddr).2) := by
  simp only [ESAConf.processDomain, h1, h2]

/-- No-record branch of the loop body: `create` is called. -/
theorem processDomain_nil (esa : ESAConf) (env : Env)
    (recordType ipAddr : String) (d : Domain) (c1 c2 : SentReq)
    (siteId : Int)
    (h1 : esa.getSiteId env d.domainName = (c1, .ok siteId))
    (h2 : esa.listRecords env siteId d recordType = (c2, .ok [])) :
    esa.processDomain env recordType ipAddr d
      = ((esa.create env siteId d recordType ipAddr).1,
         [c1, c2, (esa.create env siteId d recordType ipAddr).2]) := by
  simp only [ESAConf.processDomain, h1, h2]

/-- The domains produced by the loop are exactly the per-domain results,
in order: each domain's outcome depends only on that domain. -/
theorem processDomains_fst (esa : ESAConf) (env : Env)
    (recordType ipAddr : String) (l : List Domain) :
    (esa.processDomains env recordType ipAddr l).1
      = l.map (fun d => (esa.processDomain env recordType ipAddr d).1) := by
  induction l with
  | nil => rfl
  | cons d rest ih =>
    unfold ESAConf.processDomains
    simp [ih]

/-- The loop's call trace is the concatenation of the per-domain traces. -/
theorem processDomains_snd (esa : ESAConf) (env : Env)
    (recordType ipAddr : String) (l : List Domain) :
    (esa.processDomains env recordType ipAddr l).2
      = l.flatMap (fun d => (esa.processDomain env recordType ipAddr d).2) := by
  induction l with
  | nil => rfl
  | cons d rest ih =>
    unfold ESAConf.processDomains
    simp [ih]

/-- Looking up any key in the empty parameter set yields nothing. -/
theorem Params.get_empty (k : String) : Params.get Params.empty k = none := rfl

/-- The `ListSites` query fixes its `Action`. -/
theorem sitesParams_get_action (esa : ESAConf) (n : String) :
    (esa.sitesParams n).get "Action" = some "ListSites" := by
  simp [ESAConf.sitesParams, Params.get_set]

/-- The `ListSites` query carries the root-domain name as the exact
`SiteName`. -/
theorem sitesParams_get_sitename (esa : ESAConf) (n : String) :
    (esa.sitesParams n).get "SiteName" = some n := by
  simp [ESAConf.sitesParams, Params.get_set]

/-- The `ListSites` query requests an exact match. -/
theorem sitesParams_get_exactmatch (esa : ESAConf) (n : String) :
    (esa.sitesParams n).get "ExactMatch" = some "true" := by
  simp [ESAConf.sitesParams, Params.get_set]

/-- The `ListSites` query carries no `RecordId`. -/
theorem sitesParams_get_recordid (esa : ESAConf) (n : String) :
    (esa.sitesParams n).get "RecordId" = none := by
  simp [ESAConf.sitesParams, Params.get_set, Params.get_empty]

/-- The `ListRecords` query fixes its `Action`. -/
theorem recordsParams_get_action (esa : ESAConf) (siteId : Int) (d : Domain)
    (recordType : String) :
    (esa.recordsParams siteId d recordType).get "Action"
      = some "ListRecords" := by
  simp [ESAConf.recordsParams, Params.get_set]

/-- The `ListRecords` query carries no `RecordId`. -/
theorem recordsParams_get_recordid (esa : ESAConf) (siteId : Int)
    (d : Domain) (recordType : String) :
    (esa.recordsParams siteId d recordType).get "RecordId" = none := by
  simp [ESAConf.recordsParams, Params.get_set, Params.get_empty]

/-- The `CreateRecord` request fixes its `Action`. -/
theorem createParams_get_action (esa : ESAConf) (siteId : Int) (d : Domain)
    (recordType ipAddr : String) :
    (esa.createParams siteId d recordType ipAddr).get "Action"
      = some "CreateRecord" := by
  simp [ESAConf.createParams, Params.get_set]

/-- The `CreateRecord` request carries the current address in `Data`. -/
theorem createParams_get_data (esa : ESAConf) (siteId : Int) (d : Domain)
    (recordType ipAddr : String) :
    (esa.createParams siteId d recordType ipAddr).get "Data"
      = some (dataJson ipAddr) := by
  simp [ESAConf.createParams, Params.get_set]

/-- The `CreateRecord` request carries the adapter TTL. -/
theorem createParams_get_ttl (esa : ESAConf) (siteId : Int) (d : Domain)
    (recordType ipAddr : String) :
    (esa.createParams siteId d recordType ipAddr).get "TTL"
      = some esa.ttl := by
  simp [ESAConf.createParams, Params.get_set]

/-- The `UpdateRecord` request fixes its `Action`. -/
theorem modifyParams_get_action (esa : ESAConf) (siteId : Int)
    (record : ESARecord) (d : Domain) (recordType ipAddr : String) :
    (esa.modifyParams siteId record d recordType ipAddr).get "Action"
      = some "UpdateRecord" := by
  simp [ESAConf.modifyParams, Params.get_set]

/-- The `UpdateRecord` request targets exactly the given record's id. -/
theorem modifyParams_get_recordid (esa : ESAConf) (siteId : Int)
    (record : ESARecord) (d : Domain) (recordType ipAddr : String) :
    (esa.modifyParams siteId record d recordType ipAddr).get "RecordId"
      = some (toString record.recordId) := by
  simp [ESAConf.modifyParams, Params.get_set]

/-- The `UpdateRecord` request carries the current address in `Data`. -/
theorem modifyParams_get_data (esa : ESAConf) (siteId : Int)
    (record : ESARecord) (d : Domain) (recordType ipAddr : String) :
    (esa.modifyParams siteId record d recordType ipAddr).get "Data"
      = some (dataJson ipAddr) := by
  simp [ESAConf.modifyParams, Params.get_set]

/-- The `UpdateRecord` request carries the adapter TTL. -/
theorem modifyParams_get_ttl (esa : ESAConf) (siteId : Int)
    (record : ESARecord) (d : Domain) (recordType ipAddr : String) :
    (esa.modifyParams siteId record d recordType ipAddr).get "TTL"
      = some esa.ttl := by
  simp [ESAConf.modifyParams, Params.get_set]

/-- A key outside the seven fields `create` sets reads, in the sent
`CreateRecord` request, exactly its value in the domain's custom bag. -/
theorem createParams_passthrough (esa : ESAConf) (siteId : Int) (d : Domain)
    (recordType ipAddr k : String)
    (h1 : k ≠ "Action") (h2 : k ≠ "Version") (h3 : k ≠ "SiteId")
    (h4 : k ≠ "RecordName") (h5 : k ≠ "Type") (h6 : k ≠ "Data")
    (h7 : k ≠ "TTL") :
    (esa.createParams siteId d recordType ipAddr).get k
      = d.customParams.get k := by
  simp [ESAConf.createParams, Params.get_set, Domain.GetCustomParams,
    h1, h2, h3, h4, h5, h6, h7]

/-- A key outside the eight fields `modify` sets reads, in the sent
`UpdateRecord` request, exactly its value in the domain's custom bag. -/
theorem modifyParams_passthrough (esa : ESAConf) (siteId : Int)
    (record : ESARecord) (d : Domain) (recordType ipAddr k : String)
    (h1 : k ≠ "Action") (h2 : k ≠ "Version") (h3 : k ≠ "SiteId")
    (h4 : k ≠ "RecordId") (h5 : k ≠ "RecordName") (h6 : k ≠ "Type")
    (h7 : k ≠ "Data") (h8 : k ≠ "TTL") :
    (esa.modifyParams siteId record d recordType ipAddr).get k
      = d.customParams.get k := by
  simp [ESAConf.modifyParams, Params.get_set, Domain.GetCustomParams,
    h1, h2, h3, h4, h5, h6, h7, h8]

/-- Every request sent while processing one domain is signed with the
account credentials and is one of the four queries the adapter builds for
that domain: `ListSites`, `ListRecords`, `CreateRecord` or
`UpdateRecord`. -/
theorem processDomain_trace (esa : ESAConf) (env : Env)
    (recordType ipAddr : String) (d : Domain) :
    ∀ c ∈ (esa.processDomain env recordType ipAddr d).2,
      c.signedId = esa.dns.id ∧ c.signedSecret = esa.dns.secret ∧
      (c.params = esa.sitesParams d.domainName
       ∨ (∃ s, c.params = esa.recordsParams s d recordType)
       ∨ (∃ s, c.params = esa.createParams s d recordType ipAddr)
       ∨ (∃ s r, c.params = esa.modifyParams s r d recordType ipAddr)) := by
  intro c hc
  rcases hg : esa.getSiteId env d.domainName with ⟨c1, res1⟩
  have hc1 : c1 = ⟨esa.dns.id, esa.dns.secret, esa.sitesParams d.domainName⟩ := by
    rw [show c1 = (esa.getSiteId env d.domainName).1 by rw [hg]]
    exact getSiteId_fst esa env d.domainName
  cases res1 with
  | error e =>
    rw [processDomain_site_err esa env recordType ipAddr d c1 e hg] at hc
    simp only [List.mem_singleton] at hc
    subst hc
    rw [hc1]
    exact ⟨rfl, rfl, Or.inl rfl⟩
  | ok siteId =>
    rcases hl : esa.listRecords env siteId d recordType with ⟨c2, res2⟩
    have hc2 : c2
        = ⟨esa.dns.id, esa.dns.secret, esa.recordsParams siteId d recordType⟩ := by
      rw [show c2 = (esa.listRecords env siteId d recordType).1 by rw [hl]]
      exact listRecords_fst esa env siteId d recordType
    cases res2 with
    | error e =>
      rw [processDomain_list_err esa env recordType ipAddr d c1 c2 siteId e hg hl] at hc
      simp only [List.mem_cons, List.mem_singleton, List.not_mem_nil, or_false] at hc
      rcases hc with hc | hc
      · subst hc; rw [hc1]; exact ⟨rfl, rfl, Or.inl rfl⟩
      · subst hc; rw [hc2]
        exact ⟨rfl, rfl, Or.inr (Or.inl ⟨siteId, rfl⟩)⟩
    | ok records =>
      cases records with
      | nil =>
        rw [processDomain_nil esa env recordType ipAddr d c1 c2 siteId hg hl] at hc
        have h3 : (esa.create env siteId d recordType ipAddr).2
            = ⟨esa.dns.id, esa.dns.secret,
               esa.createParams siteId d recordType ipAddr⟩ := by
          rw [create_eq]
        simp only [List.mem_cons, List.mem_singleton, List.not_mem_nil, or_false] at hc
        rcases hc with hc | hc | hc
        · subst hc; rw [hc1]; exact ⟨rfl, rfl, Or.inl rfl⟩
        · subst hc; rw [hc2]
          exact ⟨rfl, rfl, Or.inr (Or.inl ⟨siteId, rfl⟩)⟩
        · subst hc; rw [h3]
          exact ⟨rfl, rfl, Or.inr (Or.inr (Or.inl ⟨siteId, rfl⟩))⟩
      | cons r rest =>
        rw [processDomain_cons esa env recordType ipAddr d c1 c2 siteId r rest hg hl] at hc
        have h3 : (esa.modify env siteId r d recordType ipAddr).2
            = if r.data.value = ipAddr then []
              else [⟨esa.dns.id, esa.dns.secret,
                     esa.modifyParams siteId r d recordType ipAddr⟩] := by
          rw [modify_eq]
          by_cases hv : r.data.value = ipAddr <;> simp [hv]
        rw [h3] at hc
        by_cases hv : r.data.value = ipAddr
        · rw [if_pos hv] at hc
          simp only [List.mem_cons, List.not_mem_nil, or_false] at hc
          rcases hc with hc | hc
          · subst hc; rw [hc1]; exact ⟨rfl, rfl, Or.inl rfl⟩
          · subst hc; rw [hc2]
            exact ⟨rfl, rfl, Or.inr (Or.inl ⟨siteId, rfl⟩)⟩
        · rw [if_neg hv] at hc
          simp only [List.mem_cons, List.mem_singleton, List.not_mem_nil, or_false] at hc
          rcases hc with hc | hc | hc
          · subst hc; rw [hc1]; exact ⟨rfl, rfl, Or.inl rfl⟩
          · subst hc; rw [hc2]
            exact ⟨rfl, rfl, Or.inr (Or.inl ⟨siteId, rfl⟩)⟩
          · subst hc
            exact ⟨rfl, rfl, Or.inr (Or.inr (Or.inr ⟨siteId, r, rfl⟩))⟩

/-- Every request sent during a per-family pass arose while processing one
of that family's candidate domains. -/
theorem pass_trace (esa : ESAConf) (env : Env) (recordType : String)
    (ds : Domains) :
    ∀ c ∈ (esa.addUpdateDomainRecords env recordType ds).2,
      ∃ d ∈ (ds.GetNewIpResult recordType).2,
        c ∈ (esa.processDomain env recordType
              (ds.GetNewIpResult recordType).1 d).2 := by
  intro c hc
  simp only [ESAConf.addUpdateDomainRecords] at hc
  by_cases h : (ds.GetNewIpResult recordType).1 = ""
  · simp [h] at hc
  · rw [if_neg h, processDomains_snd] at hc
    exact List.mem_flatMap.mp hc

/-! ### Concrete fixtures used by witnesses and counterexamples -/

/-- A concrete driver configuration for the witness scenarios. -/
def esaW : ESAConf := { dns := { id := "AKID", secret := "AKSECRET" }, ttl := "30" }

/-- The domain `home.example.com` with one custom parameter and a fresh
status. -/
def domW : Domain :=
  { domainName := "example.com", subDomain := "home",
    customParams := [("Proxied", "false")], updateStatus := .UpdatedNothing }

/-- A site listing answering `example.com` with a single site `100`. -/
def respSitesW : RespData :=
  { totalCount := 1, sites := [{ siteId := 100, siteName := "example.com" }],
    records := [], requestId := "req-1", recordId := 0 }

/-- An existing A record for `home.example.com` holding `1.2.3.4`. -/
def recW : ESARecord :=
  { recordId := 7, recordName := "home.example.com", type := "A",
    data := { value := "1.2.3.4" } }

/-- A provider in which `example.com` resolves to site `100` and
`home.example.com` already holds the record `recW` (value `1.2.3.4`). -/
def envSame : Env := fun p =>
  match Params.get p "Action" with
  | some "ListSites" => .ok respSitesW
  | some "ListRecords" =>
      .ok { respSitesW with records := [recW], requestId := "req-2" }
  | _ => .ok { respSitesW with requestId := "req-3" }

/-- The signed site-lookup request for `example.com` under `esaW`. -/
def c1W : SentReq :=
  { signedId := "AKID", signedSecret := "AKSECRET",
    params := esaW.sitesParams "example.com" }

/-- The signed record-listing request for `domW` in site `100`. -/
def c2W : SentReq :=
  { signedId := "AKID", signedSecret := "AKSECRET",
    params := esaW.recordsParams 100 domW "A" }

/-- A domain set whose current IPv4 address `1.2.3.4` already matches the
remote record. -/
def dsSame : Domains :=
  { ipv4Addr := "1.2.3.4", ipv6Addr := "",
    ipv4Domains := [domW], ipv6Domains := [],
    ipv4Cache := { addr := "1.2.3.4", times := 1 },
    ipv6Cache := { addr := "", times := 0 } }

/-! ### Claims -/

/-- Claim C1, amended.  For a domain whose existing remote record's value
already equals the current address, the pass performs zero
`CreateRecord`/`UpdateRecord` calls for it (only the `ListSites` and
`ListRecords` reads go out) and leaves the domain — its update status
included — entirely unchanged; the status is NOT set to Success as the
original claim states. -/
theorem C1_idempotent_short_circuit (esa : ESAConf) (env : Env)
    (recordType ipAddr : String) (d : Domain) (c1 c2 : SentReq)
    (siteId : Int) (r : ESARecord) (rest : List ESARecord)
    (h1 : esa.getSiteId env d.domainName = (c1, .ok siteId))
    (h2 : esa.listRecords env siteId d recordType = (c2, .ok (r :: rest)))
    (hv : r.data.value = ipAddr) :
    esa.processDomain env recordType ipAddr d = (d, [c1, c2])
    ∧ c1.params.get "Action" = some "ListSites"
    ∧ c2.params.get "Action" = some "ListRecords" := by
  have hm : esa.modify env siteId r d recordType ipAddr = (d, []) := by
    rw [modify_eq, if_pos hv]
  refine ⟨?_, ?_, ?_⟩
  · rw [processDomain_cons esa env recordType ipAddr d c1 c2 siteId r rest h1 h2, hm]
  · rw [show c1 = (esa.getSiteId env d.domainName).1 by rw [h1], getSiteId_fst]
    exact sitesParams_get_action esa d.domainName
  · rw [show c2 = (esa.listRecords env siteId d recordType).1 by rw [h2],
      listRecords_fst]
    exact recordsParams_get_action esa siteId d recordType

/-- Claim C1, witness: a concrete run of the short-circuit scenario. -/
theorem C1_witness :
    esaW.getSiteId envSame domW.domainName = (c1W, .ok 100)
    ∧ esaW.listRecords envSame 100 domW "A" = (c2W, .ok [recW])
    ∧ recW.data.value = "1.2.3.4"
    ∧ (esaW.processDomain envSame "A" "1.2.3.4" domW = (domW, [c1W, c2W])
       ∧ c1W.params.get "Action" = some "ListSites"
       ∧ c2W.params.get "Action" = some "ListRecords") :=
  ⟨rfl, rfl, rfl,
   C1_idempotent_short_circuit esaW envSame "A" "1.2.3.4" domW c1W c2W 100
     recW [] rfl rfl rfl⟩

/-- Claim C1, counterexample to the claim as stated: in the concrete
matching-record run the pass makes only the two read calls, but the
domain's status afterwards is still `UpdatedNothing`, not
`UpdatedSuccess` — the code returns from `modify` without writing the
status. -/
theorem C1_counterexample :
    ((esaW.addUpdateDomainRecords envSame "A" dsSame).2.map
        (fun c => c.params.get "Action"))
      = [some "ListSites", some "ListRecords"]
    ∧ ((esaW.addUpdateDomainRecords envSame "A" dsSame).1.ipv4Domains.map
        (fun d => d.updateStatus))
      = [UpdateStatusType.UpdatedNothing] :=
  ⟨rfl, rfl⟩

/-- The two-site listing the ambiguous-match scenario answers with. -/
def respTwoW : RespData :=
  { totalCount := 2,
    sites := [{ siteId := 100, siteName := "example.com" },
              { siteId := 200, siteName := "example.com" }],
    records := [], requestId := "req-a", recordId := 0 }

/-- A provider that reports two sites for the exact name `example.com`. -/
def envTwoSites : Env := fun p =>
  match Params.get p "Action" with
  | some "ListSites" => .ok respTwoW
  | _ => .ok { totalCount := 0, sites := [], records := [],
               requestId := "req-b", recordId := 0 }

/-- Claim C2, amended.  `getSiteId` performs an exact-name lookup (the
query carries `SiteName` = the root-domain name and `ExactMatch` =
`"true"`) and returns an error exactly when the transport fails or the
response reports a zero total count or an empty site list; otherwise it
returns the FIRST listed site's identifier — even when more than one site
shares the exact name, contrary to the original claim's
uniqueness requirement. -/
theorem C2_zone_resolution (esa : ESAConf) (env : Env) (n : String) :
    ((esa.getSiteId env n).1.params.get "SiteName" = some n
     ∧ (esa.getSiteId env n).1.params.get "ExactMatch" = some "true")
    ∧ (∀ e, env (esa.sitesParams n) = .error e →
        (esa.getSiteId env n).2 = .error e)
    ∧ (∀ resp, env (esa.sitesParams n) = .ok resp →
        (resp.totalCount = 0 ∨ resp.sites = []) →
        (esa.getSiteId env n).2
          = .error ("site not found for domain: " ++ n))
    ∧ (∀ resp s rest, env (esa.sitesParams n) = .ok resp →
        resp.sites = s :: rest → resp.totalCount ≠ 0 →
        (esa.getSiteId env n).2 = .ok s.siteId) := by
  refine ⟨⟨?_, ?_⟩, ?_, ?_, ?_⟩
  · rw [getSiteId_fst]; exact sitesParams_get_sitename esa n
  · rw [getSiteId_fst]; exact sitesParams_get_exactmatch esa n
  · intro e he
    rw [getSiteId_eq, he]
  · intro resp hresp hz
    rw [getSiteId_eq, hresp]
    dsimp only
    rcases hz with hz | hz
    · cases hs : resp.sites with
      | nil => rfl
      | cons s rest => simp [hz]
    · rw [hz]
  · intro resp s rest hresp hs hnz
    rw [getSiteId_eq, hresp]
    dsimp only
    rw [hs]
    simp [hnz]

/-- Claim C2, witness: the amended behavior exercised on the concrete
two-site provider — the first site's id is returned. -/
theorem C2_witness :
    envTwoSites (esaW.sitesParams "example.com") = .ok respTwoW
    ∧ respTwoW.sites
        = { siteId := 100, siteName := "example.com" }
          :: [{ siteId := 200, siteName := "example.com" }]
    ∧ respTwoW.totalCount ≠ 0
    ∧ (esaW.getSiteId envTwoSites "example.com").2 = .ok (100 : Int) :=
  ⟨rfl, rfl, by decide,
   (C2_zone_resolution esaW envTwoSites "example.com").2.2.2 respTwoW
     { siteId := 100, siteName := "example.com" }
     [{ siteId := 200, siteName := "example.com" }] rfl rfl (by decide)⟩

/-- Claim C2, counterexample to the claim as stated: two sites share the
exact name `example.com`, yet `getSiteId` returns the first site's
identifier instead of an error. -/
theorem C2_counterexample :
    envTwoSites (esaW.sitesParams "example.com") = .ok respTwoW
    ∧ respTwoW.sites.length = 2
    ∧ (esaW.getSiteId envTwoSites "example.com").2 = .ok 100 :=
  ⟨rfl, rfl, rfl⟩

/-- A domain set whose IPv4 discovery failed this cycle (empty address)
while some domains and a cache are present. -/
def dsNoIp : Domains :=
  { ipv4Addr := "", ipv6Addr := "2001:db8::1",
    ipv4Domains := [domW], ipv6Domains := [],
    ipv4Cache := { addr := "203.0.113.9", times := 3 },
    ipv6Cache := { addr := "2001:db8::1", times := 1 } }

/-- Claim C3.  When the current address obtained for an address family is
the empty string, the pass for that family returns immediately: the call
trace is empty (so no zone-resolution, record-listing, create or update
request is made) and the domain set — every domain's update status and
both IP caches included — is returned unchanged. -/
theorem C3_empty_address_skips_pass (esa : ESAConf) (env : Env)
    (recordType : String) (ds : Domains)
    (h : (ds.GetNewIpResult recordType).1 = "") :
    esa.addUpdateDomainRecords env recordType ds = (ds, []) := by
  unfold ESAConf.addUpdateDomainRecords
  simp only [h, if_true]

/-- Claim C3, witness: the concrete IPv4 pass with failed discovery is a
complete no-op. -/
theorem C3_witness :
    (dsNoIp.GetNewIpResult "A").1 = ""
    ∧ esaW.addUpdateDomainRecords envSame "A" dsNoIp = (dsNoIp, []) :=
  ⟨rfl, C3_empty_address_skips_pass esaW envSame "A" dsNoIp rfl⟩

/-- Claim C4.  A zone-resolution or record-listing failure for one domain
in the candidate list marks exactly that domain `UpdatedFailed`, sends no
`CreateRecord`/`UpdateRecord` request for it (every request sent for it is
one of the two reads), and every other domain of the list — before or
after it — is still processed to its own outcome, which depends only on
that domain. -/
theorem C4_per_domain_isolation (esa : ESAConf) (env : Env)
    (recordType ipAddr : String) (pre post : List Domain) (d : Domain)
    (h : (∃ c1 e, esa.getSiteId env d.domainName = (c1, .error e))
       ∨ (∃ c1 siteId c2 e,
            esa.getSiteId env d.domainName = (c1, .ok siteId)
            ∧ esa.listRecords env siteId d recordType = (c2, .error e))) :
    (esa.processDomains env recordType ipAddr (pre ++ d :: post)).1
      = pre.map (fun x => (esa.processDomain env recordType ipAddr x).1)
        ++ ({ d with updateStatus := .UpdatedFailed }
            :: post.map (fun x => (esa.processDomain env recordType ipAddr x).1))
    ∧ (esa.processDomain env recordType ipAddr d).1
        = { d with updateStatus := .UpdatedFailed }
    ∧ (∀ c ∈ (esa.processDomain env recordType ipAddr d).2,
        c.params.get "Action" = some "ListSites"
        ∨ c.params.get "Action" = some "ListRecords") := by
  have hd : esa.processDomain env recordType ipAddr d
      = ({ d with updateStatus := .UpdatedFailed },
         (esa.processDomain env recordType ipAddr d).2) := by
    rcases h with ⟨c1, e, h1⟩ | ⟨c1, siteId, c2, e, h1, h2⟩
    · rw [processDomain_site_err esa env recordType ipAddr d c1 e h1]
    · rw [processDomain_list_err esa env recordType ipAddr d c1 c2 siteId e h1 h2]
  refine ⟨?_, ?_, ?_⟩
  · rw [processDomains_fst, List.map_append, List.map_cons]
    rw [show (esa.processDomain env recordType ipAddr d).1
          = { d with updateStatus := .UpdatedFailed } by rw [hd]]
  · rw [hd]
  · intro c hc
    rcases h with ⟨c1, e, h1⟩ | ⟨c1, siteId, c2, e, h1, h2⟩
    · rw [processDomain_site_err esa env recordType ipAddr d c1 e h1] at hc
      simp only [List.mem_singleton] at hc
      left
      have hcc : c = (esa.getSiteId env d.domainName).1 := by rw [h1]; exact hc
      rw [hcc, getSiteId_fst]
      exact sitesParams_get_action esa d.domainName
    · rw [processDomain_list_err esa env recordType ipAddr d c1 c2 siteId e h1 h2] at hc
      simp only [List.mem_cons, List.mem_singleton, List.not_mem_nil, or_false] at hc
      rcases hc with hc | hc
      · left
        have hcc : c = (esa.getSiteId env d.domainName).1 := by rw [h1]; exact hc
        rw [hcc, getSiteId_fst]
        exact sitesParams_get_action esa d.domainName
      · right
        have hcc : c = (esa.listRecords env siteId d recordType).1 := by
          rw [h2]; exact hc
        rw [hcc, listRecords_fst]
        exact recordsParams_get_action esa siteId d recordType

/-- A second configured domain whose root domain the provider cannot
resolve. -/
def domBad : Domain :=
  { domainName := "bad.example.com", subDomain := "x",
    customParams := [], updateStatus := .UpdatedNothing }

/-- A provider where `bad.example.com` site lookup fails at the transport,
`example.com` resolves to site `100`, and `home.example.com` already holds
the record `recW`; all writes succeed. -/
def envMixed : Env := fun p =>
  match Params.get p "Action" with
  | some "ListSites" =>
      if Params.get p "SiteName" = some "bad.example.com" then
        .error "dial tcp: lookup esa timeout"
      else .ok respSitesW
  | some "ListRecords" =>
      .ok { respSitesW with records := [recW], requestId := "req-2" }
  | _ => .ok { respSitesW with requestId := "req-3" }

/-- The signed site lookup for `bad.example.com` under `esaW`. -/
def cBadW : SentReq :=
  { signedId := "AKID", signedSecret := "AKSECRET",
    params := esaW.sitesParams "bad.example.com" }

/-- Claim C4, witness: with `bad.example.com` failing zone resolution and
`home.example.com` succeeding (address changed to `5.6.7.8`), the loop
marks the first domain Failed and still carries the second to Success. -/
theorem C4_witness :
    esaW.getSiteId envMixed domBad.domainName
      = (cBadW, .error "dial tcp: lookup esa timeout")
    ∧ (esaW.processDomains envMixed "A" "5.6.7.8" ([] ++ domBad :: [domW])).1
        = [{ domBad with updateStatus := .UpdatedFailed },
           { domW with updateStatus := .UpdatedSuccess }]
    ∧ (esaW.processDomain envMixed "A" "5.6.7.8" domBad).1
        = { domBad with updateStatus := .UpdatedFailed } :=
  ⟨rfl,
   by
     rw [(C4_per_domain_isolation esaW envMixed "A" "5.6.7.8" [] [domW] domBad
       (Or.inl ⟨cBadW, "dial tcp: lookup esa timeout", rfl⟩)).1]
     rfl,
   (C4_per_domain_isolation esaW envMixed "A" "5.6.7.8" [] [domW] domBad
     (Or.inl ⟨cBadW, "dial tcp: lookup esa timeout", rfl⟩)).2.1⟩

/-- A provider where `example.com` resolves to site `100` and
`home.example.com` has no record yet; all writes succeed. -/
def envFresh : Env := fun p =>
  match Params.get p "Action" with
  | some "ListSites" => .ok respSitesW
  | some "ListRecords" => .ok { respSitesW with requestId := "req-2" }
  | _ => .ok { respSitesW with requestId := "req-3" }

/-- Claim C5.  For a domain whose record listing answers an empty sequence,
the pass sends exactly three requests — the two reads and exactly one
`CreateRecord` — the create request carries the current address as the
record value in its `Data` payload, and the domain's status becomes
Success when the create call succeeds and Failed when it errors. -/
theorem C5_create_exactly_once (esa : ESAConf) (env : Env)
    (recordType ipAddr : String) (d : Domain) (c1 c2 : SentReq) (siteId : Int)
    (h1 : esa.getSiteId env d.domainName = (c1, .ok siteId))
    (h2 : esa.listRecords env siteId d recordType = (c2, .ok [])) :
    (esa.processDomain env recordType ipAddr d).2
      = [c1, c2,
         ⟨esa.dns.id, esa.dns.secret,
          esa.createParams siteId d recordType ipAddr⟩]
    ∧ ((esa.processDomain env recordType ipAddr d).2.map
        (fun c => c.params.get "Action"))
      = [some "ListSites", some "ListRecords", some "CreateRecord"]
    ∧ (esa.createParams siteId d recordType ipAddr).get "Data"
        = some (dataJson ipAddr)
    ∧ ((esa.processDomain env recordType ipAddr d).1.updateStatus
        = match env (esa.createParams siteId d recordType ipAddr) with
          | .ok _ => UpdateStatusType.UpdatedSuccess
          | .error _ => UpdateStatusType.UpdatedFailed) := by
  have hp := processDomain_nil esa env recordType ipAddr d c1 c2 siteId h1 h2
  have hcr := create_eq esa env siteId d recordType ipAddr
  have hc1 : c1 = (esa.getSiteId env d.domainName).1 := by rw [h1]
  have hc2 : c2 = (esa.listRecords env siteId d recordType).1 := by rw [h2]
  refine ⟨?_, ?_, createParams_get_data esa siteId d recordType ipAddr, ?_⟩
  · rw [hp, hcr]
  · rw [hp, hc1, hc2]
    simp [getSiteId_fst, listRecords_fst, hcr, sitesParams_get_action,
      recordsParams_get_action, createParams_get_action]
  · rw [hp, hcr]
    cases env (esa.createParams siteId d recordType ipAddr) <;> rfl

/-- Claim C5, witness: a concrete first-run pass creates the record with
value `203.0.113.5` and reaches Success. -/
theorem C5_witness :
    esaW.getSiteId envFresh domW.domainName = (c1W, .ok 100)
    ∧ esaW.listRecords envFresh 100 domW "A" = (c2W, .ok [])
    ∧ ((esaW.processDomain envFresh "A" "203.0.113.5" domW).2.map
        (fun c => c.params.get "Action"))
        = [some "ListSites", some "ListRecords", some "CreateRecord"]
    ∧ (esaW.createParams 100 domW "A" "203.0.113.5").get "Data"
        = some (dataJson "203.0.113.5")
    ∧ (esaW.processDomain envFresh "A" "203.0.113.5" domW).1.updateStatus
        = .UpdatedSuccess :=
  ⟨rfl, rfl,
   (C5_create_exactly_once esaW envFresh "A" "203.0.113.5" domW c1W c2W 100
     rfl rfl).2.1,
   (C5_create_exactly_once esaW envFresh "A" "203.0.113.5" domW c1W c2W 100
     rfl rfl).2.2.1,
   ((C5_create_exactly_once esaW envFresh "A" "203.0.113.5" domW c1W c2W 100
     rfl rfl).2.2.2).trans rfl⟩

/-- A second existing record for `home.example.com` that the pass must
leave untouched. -/
def rec2W : ESARecord :=
  { recordId := 8, recordName := "home.example.com", type := "A",
    data := { value := "9.9.9.9" } }

/-- A provider whose record listing answers two records for the same
(zone, name, type); all writes succeed. -/
def envTwoRecs : Env := fun p =>
  match Params.get p "Action" with
  | some "ListSites" => .ok respSitesW
  | some "ListRecords" =>
      .ok { respSitesW with records := [recW, rec2W], requestId := "req-2" }
  | _ => .ok { respSitesW with requestId := "req-3" }

/-- Claim C6.  When the record listing returns two or more records, the
pass hands only the FIRST returned record to `modify` — comparing its
value and, when it differs, updating that record — and no request of the
pass carries any `RecordId` other than the first record's: the remaining
returned records are never touched. -/
theorem C6_first_record_only (esa : ESAConf) (env : Env)
    (recordType ipAddr : String) (d : Domain) (c1 c2 : SentReq)
    (siteId : Int) (r : ESARecord) (rest : List ESARecord)
    (h1 : esa.getSiteId env d.domainName = (c1, .ok siteId))
    (h2 : esa.listRecords env siteId d recordType = (c2, .ok (r :: rest))) :
    esa.processDomain env recordType ipAddr d
      = ((esa.modify env siteId r d recordType ipAddr).1,
         c1 :: c2 :: (esa.modify env siteId r d recordType ipAddr).2)
    ∧ (r.data.value = ipAddr →
        esa.modify env siteId r d recordType ipAddr = (d, []))
    ∧ (r.data.value ≠ ipAddr →
        (esa.modify env siteId r d recordType ipAddr).2
          = [⟨esa.dns.id, esa.dns.secret,
              esa.modifyParams siteId r d recordType ipAddr⟩])
    ∧ (∀ c ∈ (esa.processDomain env recordType ipAddr d).2,
        c.params.get "RecordId" = none
        ∨ c.params.get "RecordId" = some (toString r.recordId)) := by
  have hp := processDomain_cons esa env recordType ipAddr d c1 c2 siteId r rest h1 h2
  have hm := modify_eq esa env siteId r d recordType ipAddr
  refine ⟨hp, ?_, ?_, ?_⟩
  · intro hv
    rw [hm, if_pos hv]
  · intro hv
    rw [hm, if_neg hv]
  · intro c hc
    rw [hp] at hc
    simp only [List.mem_cons] at hc
    rcases hc with hc | hc | hc
    · left
      have hcc : c = (esa.getSiteId env d.domainName).1 := by rw [h1]; exact hc
      rw [hcc, getSiteId_fst]
      exact sitesParams_get_recordid esa d.domainName
    · left
      have hcc : c = (esa.listRecords env siteId d recordType).1 := by
        rw [h2]; exact hc
      rw [hcc, listRecords_fst]
      exact recordsParams_get_recordid esa siteId d recordType
    · rw [hm] at hc
      by_cases hv : r.data.value = ipAddr
      · rw [if_pos hv] at hc
        simp at hc
      · rw [if_neg hv] at hc
        simp only [List.mem_singleton] at hc
        right
        rw [hc]
        exact modifyParams_get_recordid esa siteId r d recordType ipAddr

/-- Claim C6, witness: with two listed records and a changed address, only
record `7` (the first) is compared and updated; no request names record
`8`. -/
theorem C6_witness :
    esaW.getSiteId envTwoRecs domW.domainName = (c1W, .ok 100)
    ∧ esaW.listRecords envTwoRecs 100 domW "A" = (c2W, .ok [recW, rec2W])
    ∧ esaW.processDomain envTwoRecs "A" "5.6.7.8" domW
        = ((esaW.modify envTwoRecs 100 recW domW "A" "5.6.7.8").1,
           c1W :: c2W :: (esaW.modify envTwoRecs 100 recW domW "A" "5.6.7.8").2)
    ∧ ((esaW.processDomain envTwoRecs "A" "5.6.7.8" domW).2.map
        (fun c => c.params.get "RecordId"))
        = [none, none, some "7"] :=
  ⟨rfl, rfl,
   (C6_first_record_only esaW envTwoRecs "A" "5.6.7.8" domW c1W c2W 100 recW
     [rec2W] rfl rfl).1,
   rfl⟩

/-- Claim C7.  Every `CreateRecord` and `UpdateRecord` request of a pass
run by the driver produced by `Init` carries a `TTL` parameter equal to
the configured TTL when one is given and to the adapter default `"30"`
when the configured TTL is the empty string. -/
theorem C7_ttl_policy (dnsConf : DnsConfig) (env : Env) (recordType : String)
    (ds : Domains) :
    (ESA.Init dnsConf).ttl = (if dnsConf.ttl = "" then "30" else dnsConf.ttl)
    ∧ ∀ c ∈ ((ESA.Init dnsConf).addUpdateDomainRecords env recordType ds).2,
        (c.params.get "Action" = some "CreateRecord"
         ∨ c.params.get "Action" = some "UpdateRecord") →
        c.params.get "TTL"
          = some (if dnsConf.ttl = "" then "30" else dnsConf.ttl) := by
  refine ⟨rfl, ?_⟩
  intro c hc hact
  obtain ⟨d, _, hcd⟩ := pass_trace (ESA.Init dnsConf) env recordType ds c hc
  obtain ⟨_, _, hparams⟩ := processDomain_trace (ESA.Init dnsConf) env
    recordType (ds.GetNewIpResult recordType).1 d c hcd
  rcases hparams with hp | ⟨sid, hp⟩ | ⟨sid, hp⟩ | ⟨sid, r, hp⟩
  · rw [hp, sitesParams_get_action] at hact
    rcases hact with hact | hact <;> simp at hact
  · rw [hp, recordsParams_get_action] at hact
    rcases hact with hact | hact <;> simp at hact
  · rw [hp, createParams_get_ttl]
    rfl
  · rw [hp, modifyParams_get_ttl]
    rfl

/-- A configuration that leaves the TTL unspecified. -/
def confW : DnsConfig :=
  { dns := { id := "AKID", secret := "AKSECRET" }, ttl := "" }

/-- A domain set for a first run: current IPv4 `203.0.113.5`, one domain,
empty caches. -/
def dsFresh : Domains :=
  { ipv4Addr := "203.0.113.5", ipv6Addr := "",
    ipv4Domains := [domW], ipv6Domains := [],
    ipv4Cache := { addr := "", times := 0 },
    ipv6Cache := { addr := "", times := 0 } }

/-- The signed create request sent in the fresh-run scenario under the
`Init`-produced driver. -/
def c3TtlW : SentReq :=
  { signedId := "AKID", signedSecret := "AKSECRET",
    params := (ESA.Init confW).createParams 100 domW "A" "203.0.113.5" }

/-- Claim C7, witness: with an unset TTL the concrete create request of
the fresh-run pass carries `TTL` `"30"`. -/
theorem C7_witness :
    c3TtlW ∈ ((ESA.Init confW).addUpdateDomainRecords envFresh "A" dsFresh).2
    ∧ c3TtlW.params.get "Action" = some "CreateRecord"
    ∧ c3TtlW.params.get "TTL" = some "30" :=
  ⟨by decide, rfl,
   (C7_ttl_policy confW envFresh "A" dsFresh).2 c3TtlW (by decide)
     (Or.inl rfl)⟩

/-- Claim C8.  Both write requests start from the domain's custom
parameter bag: every custom key outside the eight reserved names is passed
through to the provider with its value unchanged, while the reserved
fields each request sets itself are overwritten with the adapter's values
(`create` sets seven of them; `modify` additionally sets `RecordId`). -/
theorem C8_custom_params_passthrough (esa : ESAConf) (siteId : Int)
    (r : ESARecord) (d : Domain) (recordType ipAddr k : String)
    (h : k ∉ (["Action", "Version", "SiteId", "RecordId", "RecordName",
               "Type", "Data", "TTL"] : List String)) :
    d.GetCustomParams = d.customParams
    ∧ (esa.createParams siteId d recordType ipAddr).get k
        = d.customParams.get k
    ∧ (esa.modifyParams siteId r d recordType ipAddr).get k
        = d.customParams.get k
    ∧ (esa.createParams siteId d recordType ipAddr).get "Action"
        = some "CreateRecord"
    ∧ (esa.createParams siteId d recordType ipAddr).get "Data"
        = some (dataJson ipAddr)
    ∧ (esa.createParams siteId d recordType ipAddr).get "TTL" = some esa.ttl
    ∧ (esa.modifyParams siteId r d recordType ipAddr).get "Action"
        = some "UpdateRecord"
    ∧ (esa.modifyParams siteId r d recordType ipAddr).get "RecordId"
        = some (toString r.recordId)
    ∧ (esa.modifyParams siteId r d recordType ipAddr).get "TTL"
        = some esa.ttl := by
  simp only [List.mem_cons, List.not_mem_nil, or_false, not_or] at h
  obtain ⟨h1, h2, h3, h4, h5, h6, h7, h8⟩ := h
  exact ⟨rfl,
    createParams_passthrough esa siteId d recordType ipAddr k h1 h2 h3 h5 h6 h7 h8,
    modifyParams_passthrough esa siteId r d recordType ipAddr k h1 h2 h3 h4 h5 h6 h7 h8,
    createParams_get_action esa siteId d recordType ipAddr,
    createParams_get_data esa siteId d recordType ipAddr,
    createParams_get_ttl esa siteId d recordType ipAddr,
    modifyParams_get_action esa siteId r d recordType ipAddr,
    modifyParams_get_recordid esa siteId r d recordType ipAddr,
    modifyParams_get_ttl esa siteId r d recordType ipAddr⟩

/-- Claim C8, witness: the custom key `Proxied` of `domW` reaches both
write requests with its value `"false"` untouched. -/
theorem C8_witness :
    "Proxied" ∉ (["Action", "Version", "SiteId", "RecordId", "RecordName",
                  "Type", "Data", "TTL"] : List String)
    ∧ (esaW.createParams 100 domW "A" "5.6.7.8").get "Proxied"
        = some "false"
    ∧ (esaW.modifyParams 100 recW domW "A" "5.6.7.8").get "Proxied"
        = some "false" :=
  ⟨by decide,
   ((C8_custom_params_passthrough esaW 100 recW domW "A" "5.6.7.8" "Proxied"
     (by decide)).2.1).trans rfl,
   ((C8_custom_params_passthrough esaW 100 recW domW "A" "5.6.7.8" "Proxied"
     (by decide)).2.2.1).trans rfl⟩

/-- Claim C9.  Every request a pass sends went through the single `request`
helper and is signed with the account ID and secret: no operation bypasses
signing. -/
theorem C9_all_requests_signed (esa : ESAConf) (env : Env)
    (recordType : String) (ds : Domains) :
    ∀ c ∈ (esa.addUpdateDomainRecords env recordType ds).2,
      c = (esa.request env c.params).1
      ∧ c.signedId = esa.dns.id ∧ c.signedSecret = esa.dns.secret := by
  intro c hc
  obtain ⟨d, _, hcd⟩ := pass_trace esa env recordType ds c hc
  obtain ⟨hid, hsec, _⟩ := processDomain_trace esa env recordType
    (ds.GetNewIpResult recordType).1 d c hcd
  refine ⟨?_, hid, hsec⟩
  cases c with
  | mk i sec p =>
    simp only [ESAConf.request]
    simp_all

/-- Claim C9, witness: the concrete site-lookup request of the fresh-run
pass is the signed output of the `request` helper. -/
theorem C9_witness :
    c1W ∈ (esaW.addUpdateDomainRecords envFresh "A" dsFresh).2
    ∧ (c1W = (esaW.request envFresh c1W.params).1
       ∧ c1W.signedId = esaW.dns.id ∧ c1W.signedSecret = esaW.dns.secret) :=
  ⟨by decide, C9_all_requests_signed esaW envFresh "A" dsFresh c1W (by decide)⟩

/-- Each possible outcome of the loop body for one domain: the domain is
returned untouched, or with its status overwritten by `UpdatedFailed` or
`UpdatedSuccess`; no other field ever changes. -/
theorem processDomain_fst_cases (esa : ESAConf) (env : Env)
    (recordType ipAddr : String) (d : Domain) :
    (esa.processDomain env recordType ipAddr d).1 = d
    ∨ (esa.processDomain env recordType ipAddr d).1
        = { d with updateStatus := .UpdatedFailed }
    ∨ (esa.processDomain env recordType ipAddr d).1
        = { d with updateStatus := .UpdatedSuccess } := by
  rcases hg : esa.getSiteId env d.domainName with ⟨c1, res1⟩
  cases res1 with
  | error e =>
    right; left
    rw [processDomain_site_err esa env recordType ipAddr d c1 e hg]
  | ok siteId =>
    rcases hl : esa.listRecords env siteId d recordType with ⟨c2, res2⟩
    cases res2 with
    | error e =>
      right; left
      rw [processDomain_list_err esa env recordType ipAddr d c1 c2 siteId e hg hl]
    | ok records =>
      cases records with
      | nil =>
        rw [processDomain_nil esa env recordType ipAddr d c1 c2 siteId hg hl]
        rcases he : env (esa.createParams siteId d recordType ipAddr) with e | v
        · right; left
          rw [create_eq, he]
        · right; right
          rw [create_eq, he]
      | cons r rs =>
        rw [processDomain_cons esa env recordType ipAddr d c1 c2 siteId r rs hg hl]
        by_cases hv : r.data.value = ipAddr
        · left
          rw [show esa.modify env siteId r d recordType ipAddr = (d, []) by
            rw [modify_eq, if_pos hv]]
        · rcases he : env (esa.modifyParams siteId r d recordType ipAddr) with e | v
          · right; left
            rw [modify_eq, if_neg hv, he]
          · right; right
            rw [modify_eq, if_neg hv, he]

/-- Claim C10.  A pass writes only `UpdatedFailed` or `UpdatedSuccess` to
a domain's update-status field — otherwise the field keeps its previous
value — and modifies no other field of any domain; a domain whose existing
record value equals the current address is returned with its whole state,
status included, unchanged.  At the pass level, the outcome is exactly the
pointwise loop result written back (or the untouched domain set when the
address is empty). -/
theorem C10_status_field_discipline (esa : ESAConf) (env : Env)
    (recordType ipAddr : String) (d : Domain) (ds : Domains) :
    ((esa.processDomain env recordType ipAddr d).1.domainName = d.domainName
     ∧ (esa.processDomain env recordType ipAddr d).1.subDomain = d.subDomain
     ∧ (esa.processDomain env recordType ipAddr d).1.customParams
         = d.customParams)
    ∧ ((esa.processDomain env recordType ipAddr d).1.updateStatus
         = d.updateStatus
       ∨ (esa.processDomain env recordType ipAddr d).1.updateStatus
           = .UpdatedFailed
       ∨ (esa.processDomain env recordType ipAddr d).1.updateStatus
           = .UpdatedSuccess)
    ∧ (∀ c1 c2 siteId r rest,
        esa.getSiteId env d.domainName = (c1, .ok siteId) →
        esa.listRecords env siteId d recordType = (c2, .ok (r :: rest)) →
        r.data.value = ipAddr →
        (esa.processDomain env recordType ipAddr d).1 = d)
    ∧ (esa.addUpdateDomainRecords env recordType ds = (ds, [])
       ∨ (esa.addUpdateDomainRecords env recordType ds).1
           = ds.setDomains recordType
             ((ds.GetNewIpResult recordType).2.map
               (fun x => (esa.processDomain env recordType
                 (ds.GetNewIpResult recordType).1 x).1))) := by
  refine ⟨?_, ?_, ?_, ?_⟩
  · rcases processDomain_fst_cases esa env recordType ipAddr d with hca | hca | hca
      <;> rw [hca] <;> exact ⟨rfl, rfl, rfl⟩
  · rcases processDomain_fst_cases esa env recordType ipAddr d with hca | hca | hca
      <;> rw [hca]
    · left; rfl
    · right; left; rfl
    · right; right; rfl
  · intro c1 c2 siteId r rest h1 h2 hv
    rw [processDomain_cons esa env recordType ipAddr d c1 c2 siteId r rest h1 h2]
    rw [show esa.modify env siteId r d recordType ipAddr = (d, []) by
      rw [modify_eq, if_pos hv]]
  · by_cases hip : (ds.GetNewIpResult recordType).1 = ""
    · left
      unfold ESAConf.addUpdateDomainRecords
      simp only [hip, if_true]
    · right
      unfold ESAConf.addUpdateDomainRecords
      rw [if_neg hip, processDomains_fst]

/-- Claim C10, witness: the matching-record scenario returns the domain
with every field, status included, unchanged. -/
theorem C10_witness :
    recW.data.value = "1.2.3.4"
    ∧ (esaW.processDomain envSame "A" "1.2.3.4" domW).1 = domW
    ∧ (esaW.processDomain envSame "A" "1.2.3.4" domW).1.updateStatus
        = domW.updateStatus :=
  ⟨rfl,
   (C10_status_field_discipline esaW envSame "A" "1.2.3.4" domW dsSame).2.2.1
     c1W c2W 100 recW [] rfl rfl rfl,
   by
     rw [(C10_status_field_discipline esaW envSame "A" "1.2.3.4" domW
       dsSame).2.2.1 c1W c2W 100 recW [] rfl rfl rfl]⟩

end DdnsGo
